import Mathlib

/-!
# Verification of the Dynatech Gatepass submission service

A shallow embedding of `app.py`: a single-endpoint Flask service that
validates a gate-pass submission, assigns an id from the stored records,
appends and persists the record to a JSON file, attempts an email
notification, and reports a combined result.

Environment inputs that the Python code obtains through side effects are
explicit parameters here: `now` stands for `datetime.now().isoformat()`,
`emailOk` for the boolean result of `send_gatepass_email`, and a
`SaveOutcome` together with a fall-back `FileState` for the I/O outcome of
`save_data`.
-/

/-- A gate-pass record as constructed by `submit_gatepass` (app.py 133-141). -/
structure GatePass where
  id : Int
  name : String
  department : String
  user_email : String
  reason : String
  timestamp : String
  status : String
deriving Repr, DecidableEq

/-- JSON values, the contents of the backing file (`json.load` / `json.dump`
abstracted at the value level). -/
inductive Json where
  | null
  | bool (b : Bool)
  | num (n : Int)
  | str (s : String)
  | arr (xs : List Json)
  | obj (kvs : List (String × Json))
deriving Repr

/-- `true` exactly on JSON arrays, i.e. values that are sequences. -/
def Json.isArr : Json → Bool
  | .arr _ => true
  | _ => false

/-- The states of the backing file that `load_data` (app.py 36-48)
distinguishes: absent, present but not parseable as JSON, present but
unreadable (any other I/O error), or parseable to the JSON value `j`. -/
inductive FileState where
  | missing
  | malformed
  | unreadable
  | content (j : Json)

/-- The diagnostic `load_data` prints: nothing, the corrupted-file warning
(app.py 44), or the generic load error (app.py 47). -/
inductive LoadLog where
  | silent
  | corruptedWarning
  | loadError
deriving Repr, DecidableEq

/-- `load_data` (app.py 36-48): missing file yields `[]`; a JSON parse error
yields `[]` with a warning; any other read error yields `[]` with an error
log; otherwise the parsed JSON value is returned as-is, with no validation
of its shape. The function is total: no exception reaches the caller. -/
def load_data : FileState → Json × LoadLog
  | .missing => (.arr [], .silent)
  | .malformed => (.arr [], .corruptedWarning)
  | .unreadable => (.arr [], .loadError)
  | .content j => (j, .silent)

/-- Whether the `open`/`json.dump` in `save_data` succeeds. -/
inductive SaveOutcome where
  | ok
  | ioFailure
deriving Repr, DecidableEq

/-- The JSON object `json.dump` writes for one record, keys in construction
order (app.py 133-141). -/
def encodeRecord (r : GatePass) : Json :=
  .obj [("id", .num r.id), ("name", .str r.name), ("department", .str r.department),
        ("user_email", .str r.user_email), ("reason", .str r.reason),
        ("timestamp", .str r.timestamp), ("status", .str r.status)]

/-- The JSON array `json.dump` writes for the full record list (app.py 54). -/
def encodeRecords (rs : List GatePass) : Json :=
  .arr (rs.map encodeRecord)

/-- `save_data` (app.py 50-56): on success the file now holds the JSON dump of
`data`; on an I/O failure the file is left in whatever state the failed write
produced (`fsOnFail`, environment-determined) and the error is logged (the
`Bool` component). The function is total: the `except` clause swallows every
exception, none reaches the caller. -/
def save_data (data : List GatePass) (outcome : SaveOutcome) (fsOnFail : FileState) :
    FileState × Bool :=
  match outcome with
  | .ok => (.content (encodeRecords data), false)
  | .ioFailure => (fsOnFail, true)

/-- Reads an integer JSON value. -/
def Json.asInt : Json → Option Int
  | .num n => some n
  | _ => none

/-- Reads a string JSON value. -/
def Json.asStr : Json → Option String
  | .str s => some s
  | _ => none

/-- Recovers a `GatePass` from its JSON object form. -/
def decodeRecord : Json → Option GatePass
  | .obj kvs => do
    let i ← (kvs.lookup "id").bind Json.asInt
    let n ← (kvs.lookup "name").bind Json.asStr
    let d ← (kvs.lookup "department").bind Json.asStr
    let u ← (kvs.lookup "user_email").bind Json.asStr
    let re ← (kvs.lookup "reason").bind Json.asStr
    let t ← (kvs.lookup "timestamp").bind Json.asStr
    let st ← (kvs.lookup "status").bind Json.asStr
    pure ⟨i, n, d, u, re, t, st⟩
  | _ => none

/-- Recovers each element of a list of JSON values as a record. -/
def decodeList : List Json → Option (List GatePass)
  | [] => some []
  | j :: js => do
    let r ← decodeRecord j
    let rest ← decodeList js
    pure (r :: rest)

/-- Recovers a record list from the JSON array form the file holds. -/
def decodeRecords : Json → Option (List GatePass)
  | .arr xs => decodeList xs
  | _ => none

/-- `get_next_gatepass_id` (app.py 58-63): `1` on an empty list, otherwise the
last record's id plus one (`data[-1].get('id', 0) + 1`; the `id` field is
always present on a `GatePass`). -/
def get_next_gatepass_id (data : List GatePass) : Int :=
  match data.getLast? with
  | none => 1
  | some r => r.id + 1

/-- A parsed JSON request body: an object with textual field values, as the
front-end submits. `none` at the call site models a body that
`request.get_json()` rejects. -/
abbrev Payload := List (String × String)

/-- `required_fields` (app.py 124). -/
def required_fields : List String :=
  ["name", "department", "reason", "user_email"]

/-- `field in data`: key presence, regardless of the value. -/
def hasField (data : Payload) (f : String) : Bool :=
  (data.lookup f).isSome

/-- `data[field]`; the default is never reached on validated payloads. -/
def getField (data : Payload) (f : String) : String :=
  (data.lookup f).getD ""

/-- The JSON body and HTTP status of a response from the endpoint. -/
structure Response where
  status : String
  message : String
  gatepass_id : Option Int
  http : Nat
deriving Repr, DecidableEq

/-- Everything observable about one call of the handler: the HTTP response,
the in-memory record list after the call (the list handed to `save_data`,
unchanged from the store on the rejecting paths), and the result of the
`save_data` call when one was made. -/
structure SubmitResult where
  response : Response
  records : List GatePass
  saved : Option (FileState × Bool)

/-- The record built at app.py 133-141 from a validated payload. -/
def mkRecord (data : Payload) (new_id : Int) (now : String) : GatePass :=
  ⟨new_id, getField data "name", getField data "department",
   getField data "user_email", getField data "reason", now, "pending"⟩

/-- `submit_gatepass` (app.py 116-162). `req` is the parse result of the
request body, `store` the record list loaded from the file, `now` the server
timestamp, `emailOk` the notifier outcome, `saveOut`/`fsOnFail` the
persistence outcome. -/
def submit_gatepass (req : Option Payload) (store : List GatePass) (now : String)
    (emailOk : Bool) (saveOut : SaveOutcome) (fsOnFail : FileState) : SubmitResult :=
  match req with
  | none =>
    ⟨⟨"error", "Invalid JSON format in request body.", none, 400⟩, store, none⟩
  | some data =>
    if required_fields.all (hasField data) then
      let new_id := get_next_gatepass_id store
      let gatepass_record := mkRecord data new_id now
      let gatepass_records := store ++ [gatepass_record]
      let saveRes := save_data gatepass_records saveOut fsOnFail
      if emailOk then
        ⟨⟨"success",
          "Gate Pass #" ++ toString new_id ++ " submitted and email sent successfully.",
          some new_id, 200⟩, gatepass_records, some saveRes⟩
      else
        ⟨⟨"warning",
          "Gate Pass #" ++ toString new_id ++
            " submitted and saved, but email notification failed. Check server logs.",
          some new_id, 200⟩, gatepass_records, some saveRes⟩
    else
      ⟨⟨"error", "Missing required fields.", none, 400⟩, store, none⟩

/-- The spec's reading of "next id": the maximum id among the stored records
(`0` for an empty store) plus nothing — callers add `1`. Stated from the
spec's words for comparison with `get_next_gatepass_id`. -/
def maxId (rs : List GatePass) : Int :=
  rs.foldl (fun m r => max m r.id) 0

/-- Store states reachable by a sequence of handler calls starting from the
empty store (variant 1 has no retention purge, so submissions are the only
writers). -/
inductive Reachable : List GatePass → Prop where
  | nil : Reachable []
  | step (data : Payload) (now : String) (emailOk : Bool) (saveOut : SaveOutcome)
      (fsOnFail : FileState) {s : List GatePass} (h : Reachable s) :
      Reachable (submit_gatepass (some data) s now emailOk saveOut fsOnFail).records

/-- A well-formed submission payload used in concrete scenarios. -/
def payloadA : Payload :=
  [("name", "A"), ("department", "X"), ("reason", "R"), ("user_email", "a@b.com")]

/-- A store whose ids are out of order, as a hand-edited or externally
produced data file can contain. -/
def storeOut : List GatePass :=
  [⟨5, "E", "D", "e@d.com", "r", "t", "pending"⟩,
   ⟨2, "F", "D", "f@d.com", "r", "t", "pending"⟩]

/-- A payload in which the required field `name` is present but empty. -/
def emptyNamePayload : Payload :=
  [("name", ""), ("department", "X"), ("reason", "R"), ("user_email", "a@b.com")]

/-- `p` is a leading run of `s` (character-list helper for Python's
substring test). -/
def startsWithChars : List Char → List Char → Bool
  | _, [] => true
  | [], _ :: _ => false
  | c :: cs, p :: ps => c == p && startsWithChars cs ps

/-- `pat` occurs contiguously in the character list. -/
def hasSubChars (pat : List Char) : List Char → Bool
  | [] => startsWithChars [] pat
  | c :: cs => startsWithChars (c :: cs) pat || hasSubChars pat cs

/-- Python `pat in hay` for strings: substring containment. -/
def pyStrContains (hay pat : String) : Bool :=
  hasSubChars pat.data hay.data

/-- Python `e == g` for a JSON value against a string: only equal strings
compare equal; every other value compares unequal without an error. -/
def pyEqStr (e : Json) (g : String) : Bool :=
  match e with
  | .str s => s == g
  | _ => false

/-- Python `g in data` on a parsed JSON value: key containment on objects,
element membership on arrays, substring test on strings; on JSON null,
numbers and booleans the operator raises `TypeError` (`none`). -/
def pyContains (data : Json) (g : String) : Option Bool :=
  match data with
  | .obj kvs => some (kvs.lookup g).isSome
  | .arr xs => some (xs.any (fun e => pyEqStr e g))
  | .str s => some (pyStrContains s g)
  | _ => none

/-- `all(field in data for field in fields)` (app.py 125) with Python's lazy
`all`: it stops at the first `False`; a `TypeError` raised by `in` before
that propagates (`none`). -/
def checkFields (data : Json) : List String → Option Bool
  | [] => some true
  | g :: gs =>
    match pyContains data g with
    | none => none
    | some false => some false
    | some true => checkFields data gs

/-- The HTTP status `POST /api/gatepass` answers for an arbitrary parsed
request body, against a well-formed (array-decoded) store. A body
`request.get_json()` rejects (`none`) is answered 400 inside the handler's
`try` (app.py 119-122). The field check at app.py 125 runs outside any
`try`: on a body that is JSON null, a number or a boolean, `in` raises
`TypeError`, which Flask surfaces as HTTP 500; a failed check is answered
400 (app.py 126). When the check passes, a JSON-object body subscripts its
present keys successfully and both email branches answer 200 (app.py
150-162; `load_data`, `save_data` and `send_gatepass_email` swallow their
exceptions), while an array or string body raises `TypeError` at
`data['name']` (app.py 135) — again surfaced as HTTP 500. -/
def gatepass_http_status (req : Option Json) : Nat :=
  match req with
  | none => 400
  | some data =>
    match checkFields data required_fields with
    | none => 500
    | some false => 400
    | some true =>
      match data with
      | .obj _ => 200
      | _ => 500

/-- The JSON object with textual field values that a `Payload` denotes: the
body shape `submit_gatepass` models. -/
def objOf (kvs : Payload) : Json :=
  Json.obj (kvs.map (fun p => (p.1, Json.str p.2)))

example : get_next_gatepass_id [] = 1 := by decide
example : get_next_gatepass_id storeOut = 3 := by decide
example : maxId storeOut = 5 := by decide
example : decodeRecord (encodeRecord ⟨1, "a", "b", "c", "d", "e", "f"⟩) =
    some ⟨1, "a", "b", "c", "d", "e", "f"⟩ := by decide
example :
    (submit_gatepass (some payloadA) [] "t" true .ok .missing).response.status =
      "success" := by decide
example :
    (submit_gatepass (some emptyNamePayload) [] "t" true .ok .missing).response.http =
      200 := by decide

/-! ## Helper lemmas -/

/-- Decoding inverts encoding on a single record. -/
theorem decodeRecord_encodeRecord (r : GatePass) :
    decodeRecord (encodeRecord r) = some r := rfl

/-- Decoding inverts encoding on a record list. -/
theorem decodeRecords_encodeRecords (rs : List GatePass) :
    decodeRecords (encodeRecords rs) = some rs := by
  rw [encodeRecords, decodeRecords]
  induction rs with
  | nil => rfl
  | cons r rest ih => simp [decodeList, decodeRecord_encodeRecord, ih]

/-! ## Claims -/

/-- Claim C2: `get_next_gatepass_id` returns `1` on the empty sequence and the
last record's id plus one on every non-empty sequence (every non-empty list is
`s ++ [r]` for a unique last record `r`). -/
theorem c2_nextId_last_plus_one :
    get_next_gatepass_id [] = 1 ∧
      ∀ (s : List GatePass) (r : GatePass),
        get_next_gatepass_id (s ++ [r]) = r.id + 1 := by
  refine ⟨rfl, fun s r => ?_⟩
  simp [get_next_gatepass_id, List.getLast?_concat]

/-- Claim C4: saving a record sequence and loading it back recovers a
structurally equal sequence, given the write succeeded (`SaveOutcome.ok`) and
hence the file holds the well-formed dump. -/
theorem c4_save_load_roundtrip :
    ∀ (rs : List GatePass) (fs0 : FileState),
      decodeRecords (load_data (save_data rs SaveOutcome.ok fs0).1).1 = some rs := by
  intro rs fs0
  exact decodeRecords_encodeRecords rs

/-- Claim C5, counterexample: a backing file whose content is the well-formed
JSON value `3` makes `load_data` return `3` unchanged — not a sequence, with no
warning — refuting "always returns a sequence". -/
theorem c5_counterexample :
    (load_data (FileState.content (Json.num 3))).1 = Json.num 3 ∧
      ((load_data (FileState.content (Json.num 3))).1).isArr = false ∧
      (load_data (FileState.content (Json.num 3))).2 = LoadLog.silent :=
  ⟨rfl, rfl, rfl⟩

/-- Claim C5, amended: `load_data` never raises (it is total); a missing file
yields the empty sequence, unparsable content yields the empty sequence with
the corruption warning, any other read error yields the empty sequence with an
error log, and otherwise the parsed JSON value is returned unvalidated — a
sequence exactly when the file holds a JSON array. -/
theorem c5_load_behavior :
    load_data FileState.missing = (Json.arr [], LoadLog.silent) ∧
      load_data FileState.malformed = (Json.arr [], LoadLog.corruptedWarning) ∧
      load_data FileState.unreadable = (Json.arr [], LoadLog.loadError) ∧
      ∀ j : Json, load_data (FileState.content j) = (j, LoadLog.silent) :=
  ⟨rfl, rfl, rfl, fun _ => rfl⟩

/-- On a JSON object, checking the fields never raises and reduces to key
presence of each required field. -/
theorem checkFields_obj (kvs : List (String × Json)) (fs : List String) :
    checkFields (Json.obj kvs) fs = some (fs.all (fun g => (kvs.lookup g).isSome)) := by
  induction fs with
  | nil => rfl
  | cons g gs ih =>
    cases h : (kvs.lookup g).isSome with
    | false => simp [checkFields, pyContains, List.all_cons, h]
    | true => simp [checkFields, pyContains, List.all_cons, h, ih]

/-- Looking a key up in a string-valued object wraps the payload lookup. -/
theorem lookup_map_str (kvs : Payload) (g : String) :
    (kvs.map (fun p => (p.1, Json.str p.2))).lookup g = (kvs.lookup g).map Json.str := by
  induction kvs with
  | nil => rfl
  | cons p rest ih =>
    obtain ⟨k, v⟩ := p
    cases h : g == k with
    | true => simp [List.lookup, h]
    | false => simp [List.lookup, h, ih]

/-- On the object bodies `submit_gatepass` models, the full-body status
computation agrees with the handler's response status. -/
theorem gatepass_http_status_objOf :
    ∀ (kvs : Payload) (store : List GatePass) (now : String) (emailOk : Bool)
      (so : SaveOutcome) (f : FileState),
      gatepass_http_status (some (objOf kvs)) =
        (submit_gatepass (some kvs) store now emailOk so f).response.http := by
  intro kvs store now emailOk so f
  have hall : (fun g => ((kvs.map (fun p => (p.1, Json.str p.2))).lookup g).isSome) =
      hasField kvs := by
    funext g
    rw [lookup_map_str]
    cases h2 : kvs.lookup g <;> simp [hasField, h2]
  cases h : required_fields.all (hasField kvs) with
  | false =>
    have hs : gatepass_http_status (some (objOf kvs)) = 400 := by
      simp [gatepass_http_status, objOf, checkFields_obj, hall, h]
    rw [hs]
    simp [submit_gatepass, h]
  | true =>
    have hs : gatepass_http_status (some (objOf kvs)) = 200 := by
      simp [gatepass_http_status, objOf, checkFields_obj, hall, h]
    rw [hs]
    cases emailOk <;> simp [submit_gatepass, h]

/-- Claim C7, counterexample: the request body `3` is valid JSON, so
`request.get_json()` succeeds, but `'name' in 3` at app.py 125 — outside the
handler's `try` — raises `TypeError`, which Flask answers with HTTP 500: a
status other than 200 and 400 is returned. -/
theorem c7_counterexample :
    gatepass_http_status (some (Json.num 3)) = 500 ∧
      gatepass_http_status (some (Json.num 3)) ≠ 200 ∧
      gatepass_http_status (some (Json.num 3)) ≠ 400 := by
  refine ⟨rfl, by decide, by decide⟩

/-- Claim C7, amended: every request is answered 200, 400 or 500. An
unparsable body gets 400; a JSON-object body always gets 200 or 400 — 200
exactly when the four required keys are present — and on textual objects the
status agrees with `submit_gatepass`; a body of JSON null, a number or a
boolean hits the unguarded `in` check and gets 500; array and string bodies
never get 200 — those passing the containment check crash at subscription
(500), the rest get 400. -/
theorem c7_status_codes_full :
    ∀ (req : Option Json) (store : List GatePass) (now : String) (emailOk : Bool)
      (so : SaveOutcome) (f : FileState),
      (gatepass_http_status req = 200 ∨ gatepass_http_status req = 400 ∨
        gatepass_http_status req = 500) ∧
      gatepass_http_status none = 400 ∧
      (∀ kvs : List (String × Json),
        gatepass_http_status (some (Json.obj kvs)) =
          if required_fields.all (fun g => (kvs.lookup g).isSome) then 200 else 400) ∧
      gatepass_http_status (some Json.null) = 500 ∧
      (∀ n : Int, gatepass_http_status (some (Json.num n)) = 500) ∧
      (∀ b : Bool, gatepass_http_status (some (Json.bool b)) = 500) ∧
      (∀ xs : List Json, gatepass_http_status (some (Json.arr xs)) ≠ 200) ∧
      (∀ s : String, gatepass_http_status (some (Json.str s)) ≠ 200) ∧
      (∀ kvs : Payload,
        gatepass_http_status (some (objOf kvs)) =
          (submit_gatepass (some kvs) store now emailOk so f).response.http) := by
  intro req store now emailOk so f
  refine ⟨?_, rfl, ?_, rfl, fun n => rfl, fun b => rfl, ?_, ?_, ?_⟩
  · cases req with
    | none => exact Or.inr (Or.inl rfl)
    | some data =>
      cases hc : checkFields data required_fields with
      | none => simp [gatepass_http_status, hc]
      | some b =>
        cases b with
        | false => simp [gatepass_http_status, hc]
        | true => cases data <;> simp [gatepass_http_status, hc]
  · intro kvs
    cases h : required_fields.all (fun g => (kvs.lookup g).isSome) with
    | true => simp [gatepass_http_status, checkFields_obj, h]
    | false => simp [gatepass_http_status, checkFields_obj, h]
  · intro xs
    cases hc : checkFields (Json.arr xs) required_fields with
    | none => simp [gatepass_http_status, hc]
    | some b => cases b <;> simp [gatepass_http_status, hc]
  · intro s
    cases hc : checkFields (Json.str s) required_fields with
    | none => simp [gatepass_http_status, hc]
    | some b => cases b <;> simp [gatepass_http_status, hc]
  · intro kvs
    exact gatepass_http_status_objOf kvs store now emailOk so f

/-- Claim C9: `save_data` swallows I/O failures — the failure is logged (the
flag is `true`) and the submission's response and in-memory record list are
identical to those of a run in which the write succeeded. -/
theorem c9_save_failure_swallowed :
    ∀ (req : Option Payload) (store : List GatePass) (now : String)
      (emailOk : Bool) (rs : List GatePass) (f f2 : FileState),
      (save_data rs SaveOutcome.ioFailure f).2 = true ∧
        (submit_gatepass req store now emailOk SaveOutcome.ioFailure f).response =
          (submit_gatepass req store now emailOk SaveOutcome.ok f2).response ∧
        (submit_gatepass req store now emailOk SaveOutcome.ioFailure f).records =
          (submit_gatepass req store now emailOk SaveOutcome.ok f2).records := by
  intro req store now emailOk rs f f2
  refine ⟨rfl, ?_, ?_⟩ <;>
    cases req with
    | none => rfl
    | some data =>
      by_cases hv : required_fields.all (hasField data) = true
      · cases emailOk <;> simp [submit_gatepass, hv]
      · simp [submit_gatepass, hv]

/-- Claim C3, counterexample: a payload whose required field `name` is present
but the empty string passes validation — the endpoint answers 200 and a record
is appended, refuting "empty string is rejected and nothing is stored". -/
theorem c3_counterexample :
    (submit_gatepass (some emptyNamePayload) [] "t" true SaveOutcome.ok
        FileState.missing).response.http = 200 ∧
      (submit_gatepass (some emptyNamePayload) [] "t" true SaveOutcome.ok
        FileState.missing).records ≠ [] := by
  refine ⟨by decide, by decide⟩

/-- Claim C3, amended: a payload in which some required key is absent is
rejected with HTTP 400 and the message naming the failure class, and the store
is untouched (`save_data` is not even reached); a required field that is
present but empty passes validation in this variant. -/
theorem c3_missing_key_rejected :
    ∀ (data : Payload) (store : List GatePass) (now : String) (emailOk : Bool)
      (so : SaveOutcome) (f : FileState),
      required_fields.all (hasField data) = false →
      (submit_gatepass (some data) store now emailOk so f).response =
          ⟨"error", "Missing required fields.", none, 400⟩ ∧
        (submit_gatepass (some data) store now emailOk so f).records = store ∧
        (submit_gatepass (some data) store now emailOk so f).saved = none := by
  intro data store now emailOk so f h
  refine ⟨?_, ?_, ?_⟩ <;> simp [submit_gatepass, h]

/-- Claim C3 witness: a concrete payload missing the key `name` is rejected. -/
theorem c3_missing_key_rejected_witness :
    (submit_gatepass (some [("department", "X"), ("reason", "R"), ("user_email", "a@b.com")])
        [] "t" true SaveOutcome.ok FileState.missing).response =
      ⟨"error", "Missing required fields.", none, 400⟩ :=
  (c3_missing_key_rejected
    [("department", "X"), ("reason", "R"), ("user_email", "a@b.com")]
    [] "t" true SaveOutcome.ok FileState.missing (by decide)).1

/-- Claim C6: for every valid submission the new record is appended to the
store and handed to `save_data` on both email outcomes (persistence precedes
and is independent of the email attempt), and the response depends only on the
email outcome: `success`/200 with the new id if the send succeeded,
`warning`/200 with the same id if it failed. -/
theorem c6_durability_over_email :
    ∀ (data : Payload) (store : List GatePass) (now : String) (so : SaveOutcome)
      (f : FileState),
      required_fields.all (hasField data) = true →
      (submit_gatepass (some data) store now true so f).records =
          store ++ [mkRecord data (get_next_gatepass_id store) now] ∧
        (submit_gatepass (some data) store now false so f).records =
          store ++ [mkRecord data (get_next_gatepass_id store) now] ∧
        (submit_gatepass (some data) store now true so f).saved =
          some (save_data (store ++ [mkRecord data (get_next_gatepass_id store) now]) so f) ∧
        (submit_gatepass (some data) store now false so f).saved =
          some (save_data (store ++ [mkRecord data (get_next_gatepass_id store) now]) so f) ∧
        (submit_gatepass (some data) store now true so f).response =
          ⟨"success",
            "Gate Pass #" ++ toString (get_next_gatepass_id store) ++
              " submitted and email sent successfully.",
            some (get_next_gatepass_id store), 200⟩ ∧
        (submit_gatepass (some data) store now false so f).response =
          ⟨"warning",
            "Gate Pass #" ++ toString (get_next_gatepass_id store) ++
              " submitted and saved, but email notification failed. Check server logs.",
            some (get_next_gatepass_id store), 200⟩ := by
  intro data store now so f h
  refine ⟨?_, ?_, ?_, ?_, ?_, ?_⟩ <;> simp [submit_gatepass, h]

/-- Claim C6 witness: the spec's concrete scenario — submitting
`{name:"A", department:"X", reason:"R", user_email:"a@b.com"}` against the
empty store yields `success` / id 1 and a one-record store when the email
succeeds, and `warning` with the record still stored when it fails. -/
theorem c6_durability_over_email_witness :
    (submit_gatepass (some payloadA) [] "t" true SaveOutcome.ok
        FileState.missing).response.status = "success" ∧
      (submit_gatepass (some payloadA) [] "t" true SaveOutcome.ok
        FileState.missing).response.gatepass_id = some 1 ∧
      (submit_gatepass (some payloadA) [] "t" true SaveOutcome.ok
        FileState.missing).records = [⟨1, "A", "X", "a@b.com", "R", "t", "pending"⟩] ∧
      (submit_gatepass (some payloadA) [] "t" false SaveOutcome.ok
        FileState.missing).response.status = "warning" ∧
      (submit_gatepass (some payloadA) [] "t" false SaveOutcome.ok
        FileState.missing).records = [⟨1, "A", "X", "a@b.com", "R", "t", "pending"⟩] := by
  obtain ⟨h1, h2, _, _, h5, h6⟩ :=
    c6_durability_over_email payloadA [] "t" SaveOutcome.ok FileState.missing (by decide)
  refine ⟨?_, ?_, ?_, ?_, ?_⟩
  · rw [h5]
  · rw [h5]; decide
  · rw [h1]; decide
  · rw [h6]
  · rw [h2]; decide

/-- Two string keys with distinct literals: looking one up skips the other. -/
theorem lookup_cons_ne (k v f : String) (data : Payload) (h : (f == k) = false) :
    List.lookup f ((k, v) :: data) = List.lookup f data := by
  simp [List.lookup, h]

/-- Claim C8: on every validated submission the stored record's `id`,
`timestamp` and `status` are the server-assigned values
(`get_next_gatepass_id`, the server clock reading `now` produced by
`datetime.now().isoformat()`, and `"pending"`), its remaining fields are the
payload's four required fields, and payload entries under the keys `id`,
`timestamp` or `status` are ignored: prepending such entries leaves the stored
records unchanged. -/
theorem c8_server_assigned_fields :
    ∀ (data : Payload) (store : List GatePass) (now : String) (emailOk : Bool)
      (so : SaveOutcome) (f : FileState),
      required_fields.all (hasField data) = true →
      (submit_gatepass (some data) store now emailOk so f).records =
          store ++ [⟨get_next_gatepass_id store, getField data "name",
            getField data "department", getField data "user_email",
            getField data "reason", now, "pending"⟩] ∧
        ∀ v : String,
          (submit_gatepass
              (some (("id", v) :: ("timestamp", v) :: ("status", v) :: data))
              store now emailOk so f).records =
            (submit_gatepass (some data) store now emailOk so f).records := by
  intro data store now emailOk so f h
  constructor
  · cases emailOk <;> simp [submit_gatepass, h, mkRecord]
  · intro v
    have hskip : ∀ g : String, g ∈ required_fields →
        List.lookup g (("id", v) :: ("timestamp", v) :: ("status", v) :: data) =
          List.lookup g data := by
      intro g hg
      fin_cases hg <;>
        rw [lookup_cons_ne _ _ _ _ (by decide), lookup_cons_ne _ _ _ _ (by decide),
          lookup_cons_ne _ _ _ _ (by decide)]
    have hvalid :
        required_fields.all
          (hasField (("id", v) :: ("timestamp", v) :: ("status", v) :: data)) = true := by
      rw [List.all_eq_true] at h ⊢
      intro g hg
      have := h g hg
      simpa [hasField, hskip g hg] using this
    have hfields : ∀ g : String, g ∈ required_fields →
        getField (("id", v) :: ("timestamp", v) :: ("status", v) :: data) g =
          getField data g := by
      intro g hg
      simp [getField, hskip g hg]
    cases emailOk <;>
      simp [submit_gatepass, h, hvalid, mkRecord,
        hfields "name" (by decide), hfields "department" (by decide),
        hfields "user_email" (by decide), hfields "reason" (by decide)]

/-- Claim C8 witness: a concrete validated payload carrying spoofed `id`,
`timestamp` and `status` entries stores the server-assigned values. -/
theorem c8_server_assigned_fields_witness :
    (submit_gatepass (some payloadA) [] "t" true SaveOutcome.ok
        FileState.missing).records =
        [] ++ [⟨get_next_gatepass_id [], getField payloadA "name",
          getField payloadA "department", getField payloadA "user_email",
          getField payloadA "reason", "t", "pending"⟩] ∧
      (submit_gatepass
          (some (("id", "99") :: ("timestamp", "99") :: ("status", "99") :: payloadA))
          [] "t" true SaveOutcome.ok FileState.missing).records =
        (submit_gatepass (some payloadA) [] "t" true SaveOutcome.ok
          FileState.missing).records := by
  obtain ⟨h1, h2⟩ :=
    c8_server_assigned_fields payloadA [] "t" true SaveOutcome.ok FileState.missing
      (by decide)
  exact ⟨h1, h2 "99"⟩

/-- The record list after a validated submission is the store with the new
record appended. -/
theorem records_of_valid (data : Payload) (store : List GatePass) (now : String)
    (emailOk : Bool) (so : SaveOutcome) (f : FileState)
    (h : required_fields.all (hasField data) = true) :
    (submit_gatepass (some data) store now emailOk so f).records =
      store ++ [mkRecord data (get_next_gatepass_id store) now] := by
  cases emailOk <;> simp [submit_gatepass, h]

/-- The record list after a rejected submission is the store unchanged. -/
theorem records_of_invalid (data : Payload) (store : List GatePass) (now : String)
    (emailOk : Bool) (so : SaveOutcome) (f : FileState)
    (h : ¬ required_fields.all (hasField data) = true) :
    (submit_gatepass (some data) store now emailOk so f).records = store := by
  simp [submit_gatepass, h]

/-- The id assigned next is strictly above every id of a store whose ids are
bounded by the last one; concretely we only need: it exceeds the last id and
is at least 1 whenever all stored ids are. -/
theorem nextId_pos (s : List GatePass) (hpos : ∀ r ∈ s, 1 ≤ r.id) :
    1 ≤ get_next_gatepass_id s := by
  cases hl : s.getLast? with
  | none => simp [get_next_gatepass_id, hl]
  | some q =>
    have hq := hpos q (List.mem_of_getLast?_eq_some hl)
    simp only [get_next_gatepass_id, hl]
    omega

/-- Every store reachable by submissions has strictly increasing ids, all at
least 1. -/
theorem reachable_sorted {s : List GatePass} (h : Reachable s) :
    List.Chain' (· < ·) (s.map GatePass.id) ∧ ∀ r ∈ s, 1 ≤ r.id := by
  induction h with
  | nil => exact ⟨List.chain'_nil, by simp⟩
  | step data now emailOk saveOut fsOnFail h ih =>
    rename_i s'
    obtain ⟨hc, hpos⟩ := ih
    by_cases hv : required_fields.all (hasField data) = true
    · rw [records_of_valid data s' now emailOk saveOut fsOnFail hv]
      constructor
      · rw [List.map_append, List.chain'_append]
        refine ⟨hc, List.chain'_singleton _, ?_⟩
        intro x hx y hy
        simp only [List.map_cons, List.map_nil, List.head?_cons, Option.mem_def,
          Option.some.injEq] at hy
        subst hy
        rw [List.getLast?_map] at hx
        simp only [Option.mem_def, Option.map_eq_some'] at hx
        obtain ⟨q, hq, rfl⟩ := hx
        show q.id < (mkRecord data (get_next_gatepass_id s') now).id
        simp only [mkRecord, get_next_gatepass_id, hq]
        omega
      · intro r hr
        rcases List.mem_append.1 hr with hr | hr
        · exact hpos r hr
        · simp only [List.mem_singleton] at hr
          subst hr
          exact nextId_pos s' hpos
    · rw [records_of_invalid data s' now emailOk saveOut fsOnFail hv]
      exact ⟨hc, hpos⟩

/-- Claim C10: every store reachable by a sequence of submissions from the
empty store has strictly increasing (hence unique) ids in store order, and
every further handler call only appends: the resulting record list is the
store followed by some (possibly empty) tail, no existing record modified or
removed. -/
theorem c10_store_invariants :
    ∀ (s : List GatePass), Reachable s →
      List.Chain' (· < ·) (s.map GatePass.id) ∧
        (s.map GatePass.id).Nodup ∧
        ∀ (req : Option Payload) (now : String) (emailOk : Bool)
          (so : SaveOutcome) (f : FileState),
          ∃ t, (submit_gatepass req s now emailOk so f).records = s ++ t := by
  intro s h
  have hc := (reachable_sorted h).1
  refine ⟨hc, ?_, ?_⟩
  · exact (List.chain'_iff_pairwise.1 hc).imp ne_of_lt
  · intro req now emailOk so f
    cases req with
    | none => exact ⟨[], by simp [submit_gatepass]⟩
    | some data =>
      by_cases hv : required_fields.all (hasField data) = true
      · exact ⟨[mkRecord data (get_next_gatepass_id s) now],
          records_of_valid data s now emailOk so f hv⟩
      · exact ⟨[], by rw [records_of_invalid data s now emailOk so f hv, List.append_nil]⟩

/-- Claim C10 witness: the one-record store produced by a first submission is
reachable and satisfies the invariants; a further concrete call appends. -/
theorem c10_store_invariants_witness :
    List.Chain' (· < ·)
        (List.map GatePass.id [(⟨1, "A", "X", "a@b.com", "R", "t", "pending"⟩ : GatePass)]) ∧
      (List.map GatePass.id [(⟨1, "A", "X", "a@b.com", "R", "t", "pending"⟩ : GatePass)]).Nodup ∧
      ∃ t, (submit_gatepass (some payloadA)
          [(⟨1, "A", "X", "a@b.com", "R", "t", "pending"⟩ : GatePass)] "t" true
          SaveOutcome.ok FileState.missing).records =
        [(⟨1, "A", "X", "a@b.com", "R", "t", "pending"⟩ : GatePass)] ++ t := by
  have h : Reachable [(⟨1, "A", "X", "a@b.com", "R", "t", "pending"⟩ : GatePass)] :=
    Reachable.step payloadA "t" true SaveOutcome.ok FileState.missing Reachable.nil
  obtain ⟨h1, h2, h3⟩ :=
    c10_store_invariants [(⟨1, "A", "X", "a@b.com", "R", "t", "pending"⟩ : GatePass)] h
  exact ⟨h1, h2, h3 (some payloadA) "t" true SaveOutcome.ok FileState.missing⟩

/-- Claim C1, counterexample: against a store whose ids are out of order (as a
hand-edited or externally produced data file can hold), a valid submission is
assigned last-id-plus-one (3), not max-id-plus-one (6). -/
theorem c1_counterexample :
    (submit_gatepass (some payloadA) storeOut "t" true SaveOutcome.ok
        FileState.missing).response.gatepass_id = some 3 ∧
      maxId storeOut + 1 = 6 ∧
      (submit_gatepass (some payloadA) storeOut "t" true SaveOutcome.ok
          FileState.missing).response.gatepass_id ≠ some (maxId storeOut + 1) := by
  refine ⟨by decide, by decide, by decide⟩

/-- On a nondecreasing chain the left fold of `max` lands on the last
element. -/
theorem foldl_max_getLast? :
    ∀ (l : List Int) (a : Int), List.Chain' (· ≤ ·) (a :: l) →
      (a :: l).getLast? = some (l.foldl max a) := by
  intro l
  induction l with
  | nil => intro a _; rfl
  | cons b t ih =>
    intro a h
    rw [List.chain'_cons] at h
    rw [List.getLast?_cons_cons, ih b h.2, List.foldl_cons, max_eq_right h.1]

/-- For a store with strictly increasing, positive ids — every store
submissions alone can build — the assigned next id is the maximum id plus
one. -/
theorem nextId_eq_maxId_succ (s : List GatePass)
    (hc : List.Chain' (· < ·) (s.map GatePass.id)) (hpos : ∀ r ∈ s, 1 ≤ r.id) :
    get_next_gatepass_id s = maxId s + 1 := by
  cases s with
  | nil => rfl
  | cons r0 rest =>
    have hle : List.Chain' (· ≤ ·) (r0.id :: rest.map GatePass.id) := by
      have := hc.imp (fun a b hab => le_of_lt hab)
      simpa using this
    have hlast := foldl_max_getLast? (rest.map GatePass.id) r0.id hle
    have hm : maxId (r0 :: rest) = (rest.map GatePass.id).foldl max r0.id := by
      have h0 : max 0 r0.id = r0.id :=
        max_eq_right (le_trans zero_le_one (hpos r0 (List.mem_cons_self r0 rest)))
      rw [maxId, List.foldl_cons, h0, ← List.foldl_map GatePass.id max rest r0.id]
    have hl2 : (r0 :: rest).getLast?.map GatePass.id =
        some ((rest.map GatePass.id).foldl max r0.id) := by
      rw [← List.getLast?_map, List.map_cons, hlast]
    cases hg : (r0 :: rest).getLast? with
    | none => simp [hg] at hl2
    | some q =>
      rw [hg, Option.map_some'] at hl2
      simp only [Option.some.injEq] at hl2
      simp only [get_next_gatepass_id, hg, hm]
      omega

/-- Claim C1, amended: for every valid submission against a store reachable by
submissions alone (so its ids are nondecreasing, as variant 1 has no other
writer), the returned `gatepass_id` is the maximum stored id plus one, and `1`
on the empty store; on an out-of-order store it is instead the last record's
id plus one. -/
theorem c1_id_is_max_succ_on_reachable :
    ∀ (s : List GatePass) (data : Payload) (now : String) (emailOk : Bool)
      (so : SaveOutcome) (f : FileState),
      Reachable s → required_fields.all (hasField data) = true →
      (submit_gatepass (some data) s now emailOk so f).response.gatepass_id =
          some (maxId s + 1) ∧
        (s = [] →
          (submit_gatepass (some data) s now emailOk so f).response.gatepass_id =
            some 1) := by
  intro s data now emailOk so f hs hv
  have hid : (submit_gatepass (some data) s now emailOk so f).response.gatepass_id =
      some (get_next_gatepass_id s) := by
    cases emailOk <;> simp [submit_gatepass, hv]
  obtain ⟨hc, hpos⟩ := reachable_sorted hs
  have hmax := nextId_eq_maxId_succ s hc hpos
  refine ⟨by rw [hid, hmax], ?_⟩
  intro he
  subst he
  rw [hid]
  rfl

/-- Claim C1 witness: on the empty (reachable) store a valid submission is
assigned id `1 = maxId [] + 1`. -/
theorem c1_id_is_max_succ_on_reachable_witness :
    (submit_gatepass (some payloadA) [] "t" true SaveOutcome.ok
        FileState.missing).response.gatepass_id = some (maxId [] + 1) ∧
      (submit_gatepass (some payloadA) [] "t" true SaveOutcome.ok
        FileState.missing).response.gatepass_id = some 1 := by
  obtain ⟨h1, h2⟩ :=
    c1_id_is_max_succ_on_reachable [] payloadA "t" true SaveOutcome.ok
      FileState.missing Reachable.nil (by decide)
  exact ⟨h1, h2 rfl⟩
